import Mathlib

/-!
Shallow embedding of the Helios testnet onboarding client.

Source files embedded here:
- store/onboardingStore.ts (src/unnamed/part_000): the zustand session store
  with its actions, in particular the reconciliation entry point (the store
  action the source calls initialize, embedded below under the name
  reconcile after the spec's name for this component, the Reconciliation
  Engine), resetStore and fetchUser.
- src/components/ConnectWallet.tsx: handleDisconnect and
  handleRegisterWithInvite.

Modelling conventions:
- The remote API (services/api.ts is consumed, not part of the sources) and
  the token decoding built-ins (atob, JSON.parse) are modelled as an
  environment of response functions, Env.
- Thrown JavaScript errors are modelled with Except; a JsError carries the
  fields the code inspects (message, code, response.status,
  response.data.requiresBotVerification, requiresInviteCode).
- localStorage holds one slot, the jwt_token key, modelled as Option String
  inside World together with the store state and a trace of outbound calls.
- The JavaScript expression stepMapping[last] + 1 yields NaN when the key is
  absent; steps are therefore StepVal, an integer or NaN.
-/

namespace HeliosTestnet

/-- Prefix test on character lists, used to model JavaScript
String.prototype.includes. -/
def charsPre : List Char → List Char → Bool
  | [], _ => true
  | _ :: _, [] => false
  | p :: ps, c :: cs => p == c && charsPre ps cs

/-- Substring search on character lists. -/
def charsSub (pat : List Char) : List Char → Bool
  | [] => charsPre pat []
  | c :: cs => charsPre pat (c :: cs) || charsSub pat cs

/-- Model of the JavaScript s.includes(pat). -/
def strIncludes (s pat : String) : Bool :=
  charsSub pat.toList s.toList

/-- JavaScript truthiness of an optional string: undefined, null and the
empty string are falsy. -/
def optTruthy : Option String → Bool
  | none => false
  | some s => s != ""

/-- Model of the JavaScript a || b for a string a and an optional string b. -/
def jsOr (a : String) (b : Option String) : Option String :=
  if a = "" then b else some a

/-- Whitespace removal at both ends of a character list. -/
def trimChars (l : List Char) : List Char :=
  ((l.dropWhile Char.isWhitespace).reverse.dropWhile Char.isWhitespace).reverse

/-- Model of the JavaScript s.trim(). -/
def jsTrim (s : String) : String :=
  String.mk (trimChars s.toList)

/-- User profile as consumed from services/api.ts; only the fields the
embedded code reads are kept. -/
structure User where
  wallet : String
  referralCode : Option String := none
deriving DecidableEq

/-- Payload of getOnboardingProgress; completedSteps is none when the field
is not an array (the Array.isArray check in the source). -/
structure OnboardingProgress where
  completedSteps : Option (List String)
deriving DecidableEq

/-- A UI step value: a JavaScript number that is either an integer or NaN. -/
inductive StepVal
  | num (n : Int)
  | nan
deriving DecidableEq

/-- The zustand store state (part_000 lines 24-30). -/
structure StoreState where
  step : StepVal
  xp : Int
  user : Option User
  isUserLoading : Bool
  onboardingProgress : Option OnboardingProgress
  requiresBotVerification : Bool
deriving DecidableEq

/-- A thrown JavaScript error, restricted to the fields the embedded code
inspects. responseStatus models error.response?.status and
responseDataRequiresBotVerification models
error.response?.data?.requiresBotVerification. -/
structure JsError where
  message : String := ""
  code : Option Int := none
  responseStatus : Option Nat := none
  responseDataRequiresBotVerification : Bool := false
  requiresInviteCode : Bool := false
deriving DecidableEq

/-- Decoded JWT payload: JSON.parse(atob(token.split(".")[1])); only the
wallet field is read, absent/empty modelled through Option plus truthiness. -/
structure TokenPayload where
  wallet : Option String := none
deriving DecidableEq

/-- Trace of outbound calls issued by the embedded code. -/
inductive ApiCall
  | getUserProfile (wallet : String)
  | getOnboardingProgress
  | signMessage (wallet : String)
  | confirmAccount (wallet signature inviteCode captchaToken : String)
deriving DecidableEq

/-- The world a store action acts on: the store state, the persisted
jwt_token slot of localStorage, and the call trace. -/
structure World where
  store : StoreState
  token : Option String
  calls : List ApiCall
deriving DecidableEq

/-- Fixed environment of one run: window availability, token decoding and
the API responses. -/
structure Env where
  windowDefined : Bool
  decodePayload : String → Except JsError TokenPayload
  getUserProfile : String → Except JsError User
  getOnboardingProgress : Except JsError OnboardingProgress

/-- set({ step }) on the store, wrapped at world level. -/
def setStep (w : World) (v : StepVal) : World :=
  { w with store := { w.store with step := v } }

/-- localStorage.removeItem("jwt_token"). -/
def clearToken (w : World) : World :=
  { w with token := none }

/-- set({ isUserLoading: true }) at part_000 line 88, wrapped at world
level. -/
def loadOn (w : World) : World :=
  { w with store := { w.store with isUserLoading := true } }

/-- resetStore (part_000 lines 53-60): clears everything, does not touch the
persisted token. -/
def resetStore (_s : StoreState) : StoreState :=
  { step := StepVal.num 0
    xp := 0
    user := none
    isUserLoading := false
    onboardingProgress := none
    requiresBotVerification := false }

/-- fetchUser (part_000 lines 38-51): no-op without a user wallet; on
success replaces the user; on failure keeps the user; always ends with
isUserLoading false when it fetched. -/
def fetchUser (env : Env) (w : World) : World :=
  match w.store.user with
  | none => w
  | some u =>
    if u.wallet = "" then w
    else
      let w1 : World :=
        { w with
          store := { w.store with isUserLoading := true }
          calls := w.calls ++ [ApiCall.getUserProfile u.wallet] }
      match env.getUserProfile u.wallet with
      | Except.ok updated =>
        { w1 with store := { w1.store with user := some updated, isUserLoading := false } }
      | Except.error _ =>
        { w1 with store := { w1.store with isUserLoading := false } }

/-- The profile calls issued by the decode phase: one getUserProfile call
when the decoded payload carries a truthy wallet. -/
def profileCalls (payload : TokenPayload) : List ApiCall :=
  match payload.wallet with
  | some wlt => if wlt ≠ "" then [ApiCall.getUserProfile wlt] else []
  | none => []

/-- The step-name to step table of part_000 lines 106-110. -/
def stepMapping (s : String) : Option Int :=
  if s = "add_helios_network" then some 3
  else if s = "claim_from_faucet" then some 4
  else if s = "mint_early_bird_nft" then some 5
  else none

/-- JavaScript addition of 1 to a possibly-undefined lookup: undefined + 1
is NaN. -/
def jsAddOne : Option Int → StepVal
  | some v => StepVal.num (v + 1)
  | none => StepVal.nan

/-- Step derivation of part_000 lines 102-117 on a completedSteps array. -/
def deriveStepVal (steps : List String) : StepVal :=
  if steps.length ≥ 3 then StepVal.num 7
  else if steps.length > 0 then jsAddOne (stepMapping (steps.getLastD ""))
  else StepVal.num 2

/-- The error thrown at part_000 lines 119-121 when completedSteps is not an
array. -/
def invalidProgressError : JsError :=
  { message := "Invalid onboarding progress data: completedSteps is not an array." }

/-- The custom error built at part_000 lines 135-136 and 170-171. -/
def confirmationError : JsError :=
  { message := "Account not confirmed. Please provide a valid invite code."
    requiresInviteCode := true }

/-- The account-not-confirmed classification of part_000 lines 127-129 and
165-167. -/
def isNotConfirmed (e : JsError) : Bool :=
  strIncludes e.message "not confirmed" || e.responseStatus == some 403 || e.requiresInviteCode

/-- Part_000 lines 92-97: decode the wallet from the token payload, set the
stub user and fetch the full profile. -/
def afterDecode (env : Env) (payload : TokenPayload) (w : World) : World :=
  match payload.wallet with
  | some wlt =>
    if wlt ≠ "" then
      fetchUser env { w with store := { w.store with user := some { wallet := wlt } } }
    else w
  | none => w

/-- The inner try body of part_000 lines 90-122: decode, stub user, fetch
user, fetch progress, derive the step. -/
def innerBody (env : Env) (tok : String) (w : World) : World × Except JsError Unit :=
  match env.decodePayload tok with
  | Except.error e => (w, Except.error e)
  | Except.ok payload =>
    let w1 := afterDecode env payload w
    let w2 := { w1 with calls := w1.calls ++ [ApiCall.getOnboardingProgress] }
    match env.getOnboardingProgress with
    | Except.error e => (w2, Except.error e)
    | Except.ok progress =>
      let w3 := { w2 with store := { w2.store with onboardingProgress := some progress } }
      match progress.completedSteps with
      | none => (w3, Except.error invalidProgressError)
      | some steps => (setStep w3 (deriveStepVal steps), Except.ok ())

/-- The error raised by the inner try body of part_000 lines 90-122, if
any: a token-decode failure, a progress-fetch failure, or the invalid
completedSteps shape thrown at lines 119-121. fetchUser absorbs its own
failures (lines 45-50), so no error of this phase originates there. -/
def innerErrOf (env : Env) (tok : String) : Option JsError :=
  match env.decodePayload tok with
  | Except.error e => some e
  | Except.ok _ =>
    match env.getOnboardingProgress with
    | Except.error e => some e
    | Except.ok progress =>
      match progress.completedSteps with
      | none => some invalidProgressError
      | some _ => none

/-- The inner catch of part_000 lines 123-159: not-confirmed clears the
token, resets the step and rethrows the tagged confirmation error; the bot
verification flag returns normally; anything else clears the token, resets
the step and rethrows. -/
def innerCatch (e : JsError) (w : World) : World × Except JsError Unit :=
  if isNotConfirmed e then
    (setStep (clearToken w) (StepVal.num 0), Except.error confirmationError)
  else if e.responseDataRequiresBotVerification then
    ({ w with store := { w.store with requiresBotVerification := true } }, Except.ok ())
  else
    (setStep (clearToken w) (StepVal.num 0), Except.error e)

/-- The outer catch of part_000 lines 160-191: sets isUserLoading false,
rethrows the tagged confirmation error on the not-confirmed match, returns
normally on the bot flag, and swallows everything else after resetting the
step. -/
def outerCatch (e : JsError) (w : World) : World × Except JsError Unit :=
  let w1 : World := { w with store := { w.store with isUserLoading := false } }
  if isNotConfirmed e then
    (setStep (clearToken w1) (StepVal.num 0), Except.error confirmationError)
  else if e.responseDataRequiresBotVerification then
    ({ w1 with store := { w1.store with requiresBotVerification := true } }, Except.ok ())
  else
    (setStep w1 (StepVal.num 0), Except.ok ())

/-- Composition of the two catch blocks: errors escaping the inner catch are
handled by the outer catch. -/
def handleInnerError (e : JsError) (w : World) : World × Except JsError Unit :=
  let r := innerCatch e w
  match r.2 with
  | Except.ok _ => (r.1, Except.ok ())
  | Except.error e2 => outerCatch e2 r.1

/-- The reconciliation entry point of the store, part_000 lines 81-195 (the
store action named initialize in the source). Returns the final world and
either a normal return or the propagated error. -/
def reconcile (env : Env) (w : World) : World × Except JsError Unit :=
  if env.windowDefined = false then (w, Except.ok ())
  else
    match w.token with
    | none => (setStep w (StepVal.num 0), Except.ok ())
    | some tok =>
      let r := innerBody env tok (loadOn w)
      match r.2 with
      | Except.ok _ => (r.1, Except.ok ())
      | Except.error e => handleInnerError e r.1

/-- The local component state of ConnectWallet.tsx that the embedded
handlers touch. -/
structure CWState where
  isLoading : Bool
  error : Option String
  needsInviteCode : Bool
  inviteCode : String
  inviteError : Option String
  hcaptchaToken : Option String
  pendingSignature : Option String
  pendingWallet : Option String
deriving DecidableEq

/-- handleDisconnect (ConnectWallet.tsx lines 107-124): clears the persisted
token, resets the store, clears the user and the step, and resets the local
component state keeping only the referral code from the URL. -/
def handleDisconnect (url : Option String) (w : World) (cs : CWState) : World × CWState :=
  let w1 := clearToken w
  let s1 := resetStore w1.store
  let s2 := { s1 with user := none }
  let s3 := { s2 with step := StepVal.num 0 }
  let cs1 :=
    { cs with
      error := none
      needsInviteCode := false
      pendingSignature := none
      pendingWallet := none
      inviteCode := url.getD ""
      inviteError := none }
  ({ w1 with store := s3 }, cs1)

/-- Response of api.confirmAccount; the user field may be missing. -/
structure ConfirmResponse where
  user : Option User
deriving DecidableEq

/-- Environment of handleRegisterWithInvite: the reconciliation environment
plus the wallet signing capability and the confirmAccount endpoint. -/
structure RegEnv where
  env : Env
  signMessage : String → Except JsError String
  confirmAccount : String → String → String → String → Except JsError ConfirmResponse

/-- The signMessage helper of ConnectWallet.tsx lines 183-194: any provider
failure is replaced by a fixed error message. -/
def signMessageHelper (renv : RegEnv) (addr : String) : Except JsError String :=
  match renv.signMessage addr with
  | Except.ok s => Except.ok s
  | Except.error _ => Except.error { message := "Failed to sign message" }

/-- The signature-rejection rewrite of ConnectWallet.tsx lines 440-449. -/
def rejectTransform (e : JsError) : JsError :=
  if e.code == some 4001 || strIncludes e.message "rejected" || strIncludes e.message "denied" then
    { message := "You declined the signature request. Please try again." }
  else e

/-- handleRegisterWithInvite (ConnectWallet.tsx lines 395-494): validates
the invite code (falling back to the URL code) and the pending wallet,
obtains a signature when none is pending, requires a captcha token before
calling confirmAccount, and on success stores the user and re-runs the
reconciliation. -/
def handleRegisterWithInvite (renv : RegEnv) (url : Option String) (cs : CWState) (w : World) :
    CWState × World :=
  let codeToUse := jsOr (jsTrim cs.inviteCode) url
  if optTruthy codeToUse = false then
    ({ cs with inviteError := some "Invite code is required" }, w)
  else if optTruthy cs.pendingWallet = false then
    ({ cs with inviteError := some "Authentication error. Please connect your wallet first." }, w)
  else
    let code := codeToUse.getD ""
    let wallet := cs.pendingWallet.getD ""
    let cs1 := { cs with isLoading := true, inviteError := none }
    let tryResult : CWState × World × Except JsError (Option User) :=
      if optTruthy cs1.pendingSignature = false then
        let cs2 := { cs1 with pendingSignature := some "pending" }
        let w2 := { w with calls := w.calls ++ [ApiCall.signMessage wallet] }
        match signMessageHelper renv wallet with
        | Except.error se => (cs2, w2, Except.error (rejectTransform se))
        | Except.ok sig =>
          let cs3 := { cs2 with pendingSignature := some sig }
          if optTruthy cs3.hcaptchaToken = false then
            (cs3, w2,
              Except.error
                (rejectTransform { message := "Please complete the captcha verification to proceed." }))
          else
            let cap := cs3.hcaptchaToken.getD ""
            let w3 := { w2 with calls := w2.calls ++ [ApiCall.confirmAccount wallet sig code cap] }
            match renv.confirmAccount wallet sig code cap with
            | Except.error ce => (cs3, w3, Except.error (rejectTransform ce))
            | Except.ok resp => (cs3, w3, Except.ok resp.user)
      else
        if optTruthy cs1.hcaptchaToken = false then
          (cs1, w, Except.error { message := "Please complete the captcha verification." })
        else
          let sig := cs1.pendingSignature.getD ""
          let cap := cs1.hcaptchaToken.getD ""
          let w3 := { w with calls := w.calls ++ [ApiCall.confirmAccount wallet sig code cap] }
          match renv.confirmAccount wallet sig code cap with
          | Except.error ce => (cs1, w3, Except.error ce)
          | Except.ok resp => (cs1, w3, Except.ok resp.user)
    match tryResult with
    | (csA, wA, Except.error e) =>
      ({ csA with
          inviteError :=
            some (if e.message = "" then "Failed to register or confirm account." else e.message)
          isLoading := false }, wA)
    | (csA, wA, Except.ok none) =>
      ({ csA with inviteError := some "No user data received from server", isLoading := false }, wA)
    | (csA, wA, Except.ok (some user)) =>
      let wB := { wA with store := { wA.store with user := some user } }
      let csB := { csA with needsInviteCode := false }
      let wC := (reconcile renv.env wB).1
      ({ csB with isLoading := false }, wC)

/-- The initial store state of part_000 lines 25-30. -/
def initialStore : StoreState :=
  { step := StepVal.num 0
    xp := 0
    user := none
    isUserLoading := true
    onboardingProgress := none
    requiresBotVerification := false }

/-- A generic nontrivial starting world used in the concrete runs below. -/
def world0 : World :=
  { store := { initialStore with step := StepVal.num 1 }
    token := some "h.p.s"
    calls := [] }

/-- An API profile endpoint that echoes the requested wallet. -/
def okProfile : String → Except JsError User :=
  fun wlt => Except.ok { wallet := wlt }

/-- A token decoder that yields the wallet 0xA. -/
def decode0xA : String → Except JsError TokenPayload :=
  fun _ => Except.ok { wallet := some "0xA" }

/-- Environment for the two-completed-steps scenario. -/
def envTwoSteps : Env :=
  { windowDefined := true
    decodePayload := decode0xA
    getUserProfile := okProfile
    getOnboardingProgress :=
      Except.ok { completedSteps := some ["add_helios_network", "claim_from_faucet"] } }

/-- Environment whose progress fetch fails with a plain generic error. -/
def envGenericError : Env :=
  { windowDefined := true
    decodePayload := decode0xA
    getUserProfile := okProfile
    getOnboardingProgress := Except.error { message := "boom" } }

/-- Environment returning three completed steps with unknown identifiers. -/
def envUnknownThree : Env :=
  { windowDefined := true
    decodePayload := decode0xA
    getUserProfile := okProfile
    getOnboardingProgress := Except.ok { completedSteps := some ["x", "y", "z"] } }

/-- Environment returning one completed step with an unknown identifier. -/
def envUnknownOne : Env :=
  { windowDefined := true
    decodePayload := decode0xA
    getUserProfile := okProfile
    getOnboardingProgress := Except.ok { completedSteps := some ["bogus_step"] } }

/-- Environment returning an empty completedSteps array. -/
def envEmptySteps : Env :=
  { windowDefined := true
    decodePayload := decode0xA
    getUserProfile := okProfile
    getOnboardingProgress := Except.ok { completedSteps := some [] } }

/-- Environment whose progress fetch fails with the bot-verification flag. -/
def envBot : Env :=
  { windowDefined := true
    decodePayload := decode0xA
    getUserProfile := okProfile
    getOnboardingProgress :=
      Except.error { message := "verify", responseDataRequiresBotVerification := true } }

/-- Environment whose token decoding fails, as for a malformed persisted
token. -/
def envDecodeErr : Env :=
  { windowDefined := true
    decodePayload := fun _ => Except.error { message := "Unexpected token" }
    getUserProfile := okProfile
    getOnboardingProgress := Except.ok { completedSteps := some [] } }

/-- Environment whose progress record carries a completedSteps that is not
an array. -/
def envBadShape : Env :=
  { windowDefined := true
    decodePayload := decode0xA
    getUserProfile := okProfile
    getOnboardingProgress := Except.ok { completedSteps := none } }

/-- Environment whose progress fetch fails with a not-confirmed error. -/
def envNotConfirmedErr : Env :=
  { windowDefined := true
    decodePayload := decode0xA
    getUserProfile := okProfile
    getOnboardingProgress := Except.error { message := "Account not confirmed" } }

/-- Environment whose progress fetch fails with both the 403 status and the
bot-verification payload flag. -/
def envBothFlags : Env :=
  { windowDefined := true
    decodePayload := decode0xA
    getUserProfile := okProfile
    getOnboardingProgress :=
      Except.error
        { message := "forbidden"
          responseStatus := some 403
          responseDataRequiresBotVerification := true } }

/-- Recognizer for confirmAccount entries of the call trace. -/
def isConfirmCall : ApiCall → Bool
  | ApiCall.confirmAccount _ _ _ _ => true
  | _ => false

/-- A register environment whose signing and confirmation succeed. -/
def renv0 : RegEnv :=
  { env := envTwoSteps
    signMessage := fun _ => Except.ok "sig"
    confirmAccount := fun _ _ _ _ => Except.ok { user := some { wallet := "0xB" } } }

/-- Component state with a pending wallet and signature, a captcha token and
an empty invite-code field. -/
def csB : CWState :=
  { isLoading := false
    error := none
    needsInviteCode := true
    inviteCode := ""
    inviteError := none
    hcaptchaToken := some "cap"
    pendingSignature := some "sig"
    pendingWallet := some "0xB" }

/-- Component state with no captcha token. -/
def csNoCaptcha : CWState :=
  { csB with hcaptchaToken := none }

/-! Helper lemmas about the embedded store actions. -/

theorem isNotConfirmed_confirmationError : isNotConfirmed confirmationError = true := by
  decide

theorem isNotConfirmed_invalidProgressError : isNotConfirmed invalidProgressError = false := by
  decide

theorem bot_invalidProgressError :
    invalidProgressError.responseDataRequiresBotVerification = false := rfl

@[simp] theorem loadOn_token (w : World) : (loadOn w).token = w.token := rfl

@[simp] theorem loadOn_step (w : World) : (loadOn w).store.step = w.store.step := rfl

@[simp] theorem loadOn_reqBot (w : World) :
    (loadOn w).store.requiresBotVerification = w.store.requiresBotVerification := rfl

@[simp] theorem loadOn_calls (w : World) : (loadOn w).calls = w.calls := rfl

@[simp] theorem fetchUser_token (env : Env) (w : World) :
    (fetchUser env w).token = w.token := by
  unfold fetchUser
  cases hu : w.store.user with
  | none => rfl
  | some u =>
    by_cases hw : u.wallet = ""
    · simp [hw]
    · cases hp : env.getUserProfile u.wallet <;> simp [hw, hp]

@[simp] theorem fetchUser_step (env : Env) (w : World) :
    (fetchUser env w).store.step = w.store.step := by
  unfold fetchUser
  cases hu : w.store.user with
  | none => rfl
  | some u =>
    by_cases hw : u.wallet = ""
    · simp [hw]
    · cases hp : env.getUserProfile u.wallet <;> simp [hw, hp]

@[simp] theorem fetchUser_reqBot (env : Env) (w : World) :
    (fetchUser env w).store.requiresBotVerification = w.store.requiresBotVerification := by
  unfold fetchUser
  cases hu : w.store.user with
  | none => rfl
  | some u =>
    by_cases hw : u.wallet = ""
    · simp [hw]
    · cases hp : env.getUserProfile u.wallet <;> simp [hw, hp]

theorem fetchUser_calls (env : Env) (w : World) (u : User) (hu : w.store.user = some u)
    (hw : u.wallet ≠ "") :
    (fetchUser env w).calls = w.calls ++ [ApiCall.getUserProfile u.wallet] := by
  unfold fetchUser
  rw [hu]
  cases hp : env.getUserProfile u.wallet <;> simp [hw, hp]

@[simp] theorem afterDecode_token (env : Env) (payload : TokenPayload) (w : World) :
    (afterDecode env payload w).token = w.token := by
  unfold afterDecode
  cases payload.wallet with
  | none => rfl
  | some wlt =>
    by_cases hw : wlt = "" <;> simp [hw]

@[simp] theorem afterDecode_step (env : Env) (payload : TokenPayload) (w : World) :
    (afterDecode env payload w).store.step = w.store.step := by
  unfold afterDecode
  cases payload.wallet with
  | none => rfl
  | some wlt =>
    by_cases hw : wlt = "" <;> simp [hw]

@[simp] theorem afterDecode_reqBot (env : Env) (payload : TokenPayload) (w : World) :
    (afterDecode env payload w).store.requiresBotVerification =
      w.store.requiresBotVerification := by
  unfold afterDecode
  cases payload.wallet with
  | none => rfl
  | some wlt =>
    by_cases hw : wlt = "" <;> simp [hw]

theorem afterDecode_calls (env : Env) (payload : TokenPayload) (w : World) :
    (afterDecode env payload w).calls = w.calls ++ profileCalls payload := by
  unfold afterDecode profileCalls
  cases payload.wallet with
  | none => simp
  | some wlt =>
    by_cases hw : wlt = ""
    · simp [hw]
    · simp only [hw, if_pos, ne_eq, not_false_eq_true, if_true]
      rw [fetchUser_calls env _ { wallet := wlt } rfl hw]

theorem innerBody_decodeErr (env : Env) (tok : String) (w : World) (e : JsError)
    (hdec : env.decodePayload tok = Except.error e) :
    innerBody env tok w = (w, Except.error e) := by
  simp [innerBody, hdec]

theorem innerBody_progErr (env : Env) (tok : String) (w : World) (payload : TokenPayload)
    (e : JsError) (hdec : env.decodePayload tok = Except.ok payload)
    (hprog : env.getOnboardingProgress = Except.error e) :
    (innerBody env tok w).2 = Except.error e ∧
    (innerBody env tok w).1.token = w.token ∧
    (innerBody env tok w).1.store.step = w.store.step ∧
    (innerBody env tok w).1.store.requiresBotVerification =
      w.store.requiresBotVerification := by
  simp [innerBody, hdec, hprog]

theorem innerBody_invalid (env : Env) (tok : String) (w : World) (payload : TokenPayload)
    (progress : OnboardingProgress) (hdec : env.decodePayload tok = Except.ok payload)
    (hprog : env.getOnboardingProgress = Except.ok progress)
    (hcs : progress.completedSteps = none) :
    (innerBody env tok w).2 = Except.error invalidProgressError ∧
    (innerBody env tok w).1.token = w.token ∧
    (innerBody env tok w).1.store.step = w.store.step ∧
    (innerBody env tok w).1.store.requiresBotVerification =
      w.store.requiresBotVerification := by
  simp [innerBody, hdec, hprog, hcs]

theorem innerBody_ok (env : Env) (tok : String) (w : World) (payload : TokenPayload)
    (progress : OnboardingProgress) (steps : List String)
    (hdec : env.decodePayload tok = Except.ok payload)
    (hprog : env.getOnboardingProgress = Except.ok progress)
    (hcs : progress.completedSteps = some steps) :
    (innerBody env tok w).2 = Except.ok () ∧
    (innerBody env tok w).1.store.step = deriveStepVal steps ∧
    (innerBody env tok w).1.token = w.token ∧
    (innerBody env tok w).1.calls =
      w.calls ++ profileCalls payload ++ [ApiCall.getOnboardingProgress] := by
  simp [innerBody, hdec, hprog, hcs, setStep, afterDecode_calls, List.append_assoc]

theorem innerBody_errOf (env : Env) (tok : String) (w : World) (e : JsError)
    (h : innerErrOf env tok = some e) :
    (innerBody env tok w).2 = Except.error e := by
  unfold innerErrOf at h
  cases hdec : env.decodePayload tok with
  | error e2 =>
    simp only [hdec, Option.some.injEq] at h
    subst h
    rw [innerBody_decodeErr env tok w e2 hdec]
  | ok payload =>
    cases hprog : env.getOnboardingProgress with
    | error e2 =>
      simp only [hdec, hprog, Option.some.injEq] at h
      subst h
      exact (innerBody_progErr env tok w payload e2 hdec hprog).1
    | ok progress =>
      cases hcs : progress.completedSteps with
      | none =>
        simp only [hdec, hprog, hcs, Option.some.injEq] at h
        subst h
        exact (innerBody_invalid env tok w payload progress hdec hprog hcs).1
      | some steps =>
        simp [hdec, hprog, hcs] at h

theorem handleInnerError_nc (e : JsError) (w : World) (hnc : isNotConfirmed e = true) :
    (handleInnerError e w).1.token = none ∧
    (handleInnerError e w).1.store.step = StepVal.num 0 ∧
    (handleInnerError e w).1.store.isUserLoading = false ∧
    (handleInnerError e w).1.store.requiresBotVerification =
      w.store.requiresBotVerification ∧
    (handleInnerError e w).2 = Except.error confirmationError := by
  simp [handleInnerError, innerCatch, outerCatch, hnc, isNotConfirmed_confirmationError,
    setStep, clearToken]

theorem handleInnerError_bot (e : JsError) (w : World) (hnc : isNotConfirmed e = false)
    (hbot : e.responseDataRequiresBotVerification = true) :
    handleInnerError e w =
      ({ w with store := { w.store with requiresBotVerification := true } },
       Except.ok ()) := by
  simp [handleInnerError, innerCatch, hnc, hbot]

theorem handleInnerError_other (e : JsError) (w : World) (hnc : isNotConfirmed e = false)
    (hbot : e.responseDataRequiresBotVerification = false) :
    (handleInnerError e w).1.token = none ∧
    (handleInnerError e w).1.store.step = StepVal.num 0 ∧
    (handleInnerError e w).1.store.isUserLoading = false ∧
    (handleInnerError e w).1.store.requiresBotVerification =
      w.store.requiresBotVerification ∧
    (handleInnerError e w).2 = Except.ok () := by
  simp [handleInnerError, innerCatch, outerCatch, hnc, hbot, setStep, clearToken]

theorem reconcile_noWindow (env : Env) (w : World) (h : env.windowDefined = false) :
    reconcile env w = (w, Except.ok ()) := by
  simp [reconcile, h]

theorem reconcile_noToken (env : Env) (w : World) (hwin : env.windowDefined = true)
    (h : w.token = none) :
    reconcile env w = (setStep w (StepVal.num 0), Except.ok ()) := by
  simp [reconcile, hwin, h]

theorem reconcile_tok (env : Env) (w : World) (tok : String)
    (hwin : env.windowDefined = true) (htok : w.token = some tok) :
    reconcile env w =
      (match (innerBody env tok (loadOn w)).2 with
       | Except.ok _ => ((innerBody env tok (loadOn w)).1, Except.ok ())
       | Except.error e => handleInnerError e ((innerBody env tok (loadOn w)).1)) := by
  simp [reconcile, hwin, htok, loadOn]

theorem handleInnerError_calls (e : JsError) (w : World) :
    (handleInnerError e w).1.calls = w.calls := by
  cases hnc : isNotConfirmed e <;>
    cases hbot : e.responseDataRequiresBotVerification <;>
      simp [handleInnerError, innerCatch, outerCatch, hnc, hbot,
        isNotConfirmed_confirmationError, setStep, clearToken]

theorem innerBody_callsE (env : Env) (tok : String) (w : World) :
    ∃ l, (innerBody env tok w).1.calls = w.calls ++ l := by
  unfold innerBody
  cases hdec : env.decodePayload tok with
  | error e => exact ⟨[], by simp⟩
  | ok payload =>
    cases hprog : env.getOnboardingProgress with
    | error e =>
      exact ⟨profileCalls payload ++ [ApiCall.getOnboardingProgress],
        by simp [afterDecode_calls, List.append_assoc]⟩
    | ok progress =>
      cases hcs : progress.completedSteps with
      | none =>
        exact ⟨profileCalls payload ++ [ApiCall.getOnboardingProgress],
          by simp [hcs, afterDecode_calls, List.append_assoc]⟩
      | some steps =>
        exact ⟨profileCalls payload ++ [ApiCall.getOnboardingProgress],
          by simp [hcs, setStep, afterDecode_calls, List.append_assoc]⟩

theorem reconcile_callsE (env : Env) (w : World) :
    ∃ l, (reconcile env w).1.calls = w.calls ++ l := by
  cases hwin : env.windowDefined with
  | false => exact ⟨[], by simp [reconcile_noWindow env w hwin]⟩
  | true =>
    cases htok : w.token with
    | none => exact ⟨[], by simp [reconcile_noToken env w hwin htok, setStep]⟩
    | some tok =>
      rw [reconcile_tok env w tok hwin htok]
      obtain ⟨l, hl⟩ := innerBody_callsE env tok (loadOn w)
      cases hsnd : (innerBody env tok (loadOn w)).2 with
      | ok u => exact ⟨l, by simpa using hl⟩
      | error e => exact ⟨l, by simpa [handleInnerError_calls] using hl⟩

/-! Claim theorems. -/

/-- C1: for every progress record fetched successfully by the reconciliation
entry point with a token present, completedSteps of length at least 3 yields
step 7 regardless of content, an empty completedSteps yields step 2, and
otherwise a last element add_helios_network, claim_from_faucet or
mint_early_bird_nft yields step 4, 5 or 6 respectively. -/
theorem reconcile_step_table (env : Env) (w : World) (tok : String)
    (payload : TokenPayload) (progress : OnboardingProgress) (steps : List String)
    (hwin : env.windowDefined = true) (htok : w.token = some tok)
    (hdec : env.decodePayload tok = Except.ok payload)
    (hprog : env.getOnboardingProgress = Except.ok progress)
    (hcs : progress.completedSteps = some steps) :
    (steps.length ≥ 3 → (reconcile env w).1.store.step = StepVal.num 7) ∧
    (steps = [] → (reconcile env w).1.store.step = StepVal.num 2) ∧
    (steps ≠ [] → steps.length < 3 →
      ((steps.getLastD "" = "add_helios_network" →
          (reconcile env w).1.store.step = StepVal.num 4) ∧
       (steps.getLastD "" = "claim_from_faucet" →
          (reconcile env w).1.store.step = StepVal.num 5) ∧
       (steps.getLastD "" = "mint_early_bird_nft" →
          (reconcile env w).1.store.step = StepVal.num 6))) := by
  have hh := innerBody_ok env tok (loadOn w) payload progress steps hdec hprog hcs
  have hA : (reconcile env w).1 = (innerBody env tok (loadOn w)).1 := by
    rw [reconcile_tok env w tok hwin htok, hh.1]
  have hstep : (reconcile env w).1.store.step = deriveStepVal steps := by
    rw [hA]; exact hh.2.1
  refine ⟨?_, ?_, ?_⟩
  · intro h3; rw [hstep]; simp [deriveStepVal, h3]
  · intro hemp; subst hemp; rw [hstep]; decide
  · intro hne hlt
    have hpos : 0 < steps.length := List.length_pos.mpr hne
    have hnot3 : ¬ (3 ≤ steps.length) := by omega
    refine ⟨?_, ?_, ?_⟩ <;> intro hlast <;> rw [hstep] <;> unfold deriveStepVal <;>
      rw [if_neg hnot3, if_pos hpos, hlast] <;> decide

/-- Witness for C1 at three concrete runs: three unknown completed steps
give step 7, an empty array gives step 2, and a last completed step
claim_from_faucet gives step 5. -/
theorem reconcile_step_table_witness :
    (reconcile envUnknownThree world0).1.store.step = StepVal.num 7 ∧
    (reconcile envEmptySteps world0).1.store.step = StepVal.num 2 ∧
    (reconcile envTwoSteps world0).1.store.step = StepVal.num 5 := by
  refine ⟨?_, ?_, ?_⟩
  · exact (reconcile_step_table envUnknownThree world0 "h.p.s" { wallet := some "0xA" }
      { completedSteps := some ["x", "y", "z"] } ["x", "y", "z"]
      rfl rfl rfl rfl rfl).1 (by decide)
  · exact (reconcile_step_table envEmptySteps world0 "h.p.s" { wallet := some "0xA" }
      { completedSteps := some [] } [] rfl rfl rfl rfl rfl).2.1 rfl
  · exact ((reconcile_step_table envTwoSteps world0 "h.p.s" { wallet := some "0xA" }
      { completedSteps := some ["add_helios_network", "claim_from_faucet"] }
      ["add_helios_network", "claim_from_faucet"]
      rfl rfl rfl rfl rfl).2.2 (by decide) (by decide)).2.1 rfl

/-- C3: every progress-fetch error classified as requiring bot verification
makes the reconciliation set requiresBotVerification, keep the persisted
token, leave the step untouched and return normally. -/
theorem reconcile_bot_gate (env : Env) (w : World) (tok : String)
    (payload : TokenPayload) (e : JsError)
    (hwin : env.windowDefined = true) (htok : w.token = some tok)
    (hdec : env.decodePayload tok = Except.ok payload)
    (hprog : env.getOnboardingProgress = Except.error e)
    (hnc : isNotConfirmed e = false)
    (hbot : e.responseDataRequiresBotVerification = true) :
    (reconcile env w).1.token = some tok ∧
    (reconcile env w).1.store.requiresBotVerification = true ∧
    (reconcile env w).1.store.step = w.store.step ∧
    (reconcile env w).2 = Except.ok () := by
  have hib := innerBody_progErr env tok (loadOn w) payload e hdec hprog
  have hA : reconcile env w = handleInnerError e ((innerBody env tok (loadOn w)).1) := by
    rw [reconcile_tok env w tok hwin htok, hib.1]
  rw [hA, handleInnerError_bot e _ hnc hbot]
  refine ⟨?_, rfl, ?_, rfl⟩
  · show (innerBody env tok (loadOn w)).1.token = some tok
    rw [hib.2.1]; simpa using htok
  · show (innerBody env tok (loadOn w)).1.store.step = w.store.step
    rw [hib.2.2.1]; simp

/-- Witness for C3 at a concrete bot-verification error. -/
theorem reconcile_bot_gate_witness :
    (reconcile envBot world0).1.token = some "h.p.s" ∧
    (reconcile envBot world0).1.store.requiresBotVerification = true ∧
    (reconcile envBot world0).1.store.step = world0.store.step ∧
    (reconcile envBot world0).2 = Except.ok () :=
  reconcile_bot_gate envBot world0 "h.p.s" { wallet := some "0xA" }
    { message := "verify", responseDataRequiresBotVerification := true }
    rfl rfl rfl rfl (by decide) rfl

/-- C4: every progress-fetch error classified as account-not-confirmed makes
the reconciliation clear the persisted token, set the step to 0 and
propagate an error tagged with requiresInviteCode. -/
theorem reconcile_not_confirmed (env : Env) (w : World) (tok : String)
    (payload : TokenPayload) (e : JsError)
    (hwin : env.windowDefined = true) (htok : w.token = some tok)
    (hdec : env.decodePayload tok = Except.ok payload)
    (hprog : env.getOnboardingProgress = Except.error e)
    (hnc : isNotConfirmed e = true) :
    (reconcile env w).1.token = none ∧
    (reconcile env w).1.store.step = StepVal.num 0 ∧
    (reconcile env w).2 = Except.error confirmationError ∧
    confirmationError.requiresInviteCode = true := by
  have hib := innerBody_progErr env tok (loadOn w) payload e hdec hprog
  have hA : reconcile env w = handleInnerError e ((innerBody env tok (loadOn w)).1) := by
    rw [reconcile_tok env w tok hwin htok, hib.1]
  have hh := handleInnerError_nc e ((innerBody env tok (loadOn w)).1) hnc
  rw [hA]
  exact ⟨hh.1, hh.2.1, hh.2.2.2.2, rfl⟩

/-- Witness for C4 at a concrete not-confirmed error. -/
theorem reconcile_not_confirmed_witness :
    (reconcile envNotConfirmedErr world0).1.token = none ∧
    (reconcile envNotConfirmedErr world0).1.store.step = StepVal.num 0 ∧
    (reconcile envNotConfirmedErr world0).2 = Except.error confirmationError ∧
    confirmationError.requiresInviteCode = true :=
  reconcile_not_confirmed envNotConfirmedErr world0 "h.p.s" { wallet := some "0xA" }
    { message := "Account not confirmed" } rfl rfl rfl rfl (by decide)

/-- C10: the account-not-confirmed check precedes the bot-verification
check; an error matching both clears the token, sets step 0, propagates the
tagged confirmation error and never sets requiresBotVerification. -/
theorem reconcile_not_confirmed_priority (env : Env) (w : World) (tok : String)
    (payload : TokenPayload) (e : JsError)
    (hwin : env.windowDefined = true) (htok : w.token = some tok)
    (hdec : env.decodePayload tok = Except.ok payload)
    (hprog : env.getOnboardingProgress = Except.error e)
    (hnc : isNotConfirmed e = true)
    (_hbot : e.responseDataRequiresBotVerification = true) :
    (reconcile env w).1.token = none ∧
    (reconcile env w).1.store.step = StepVal.num 0 ∧
    (reconcile env w).1.store.requiresBotVerification = w.store.requiresBotVerification ∧
    (reconcile env w).2 = Except.error confirmationError := by
  have hib := innerBody_progErr env tok (loadOn w) payload e hdec hprog
  have hA : reconcile env w = handleInnerError e ((innerBody env tok (loadOn w)).1) := by
    rw [reconcile_tok env w tok hwin htok, hib.1]
  have hh := handleInnerError_nc e ((innerBody env tok (loadOn w)).1) hnc
  rw [hA]
  refine ⟨hh.1, hh.2.1, ?_, hh.2.2.2.2⟩
  rw [hh.2.2.2.1, hib.2.2.2]; simp

/-- Witness for C10 at a concrete error carrying both the 403 status and the
bot-verification payload flag. -/
theorem reconcile_not_confirmed_priority_witness :
    (reconcile envBothFlags world0).1.token = none ∧
    (reconcile envBothFlags world0).1.store.step = StepVal.num 0 ∧
    (reconcile envBothFlags world0).1.store.requiresBotVerification =
      world0.store.requiresBotVerification ∧
    (reconcile envBothFlags world0).2 = Except.error confirmationError :=
  reconcile_not_confirmed_priority envBothFlags world0 "h.p.s" { wallet := some "0xA" }
    { message := "forbidden"
      responseStatus := some 403
      responseDataRequiresBotVerification := true }
    rfl rfl rfl rfl (by decide) rfl

/-- C2 counterexample: in the concrete scenario where the token decodes to
wallet 0xA and the progress is add_helios_network followed by
claim_from_faucet, the final step is 5 and not 6 as claimed. -/
theorem reconcile_two_steps_cex :
    (reconcile envTwoSteps world0).1.store.step = StepVal.num 5 ∧
    (reconcile envTwoSteps world0).1.store.step ≠ StepVal.num 6 :=
  ⟨rfl, by decide⟩

/-- C2 amended: with a token decoding to wallet 0xA and progress
add_helios_network followed by claim_from_faucet, the reconciliation ends
with step 5 and the user profile fetched for wallet 0xA. -/
theorem reconcile_two_steps_amended (env : Env) (w : World) (tok : String)
    (hwin : env.windowDefined = true) (htok : w.token = some tok)
    (hdec : env.decodePayload tok = Except.ok { wallet := some "0xA" })
    (hprog : env.getOnboardingProgress =
      Except.ok { completedSteps := some ["add_helios_network", "claim_from_faucet"] }) :
    (reconcile env w).1.store.step = StepVal.num 5 ∧
    ApiCall.getUserProfile "0xA" ∈ (reconcile env w).1.calls := by
  have hh := innerBody_ok env tok (loadOn w) { wallet := some "0xA" }
    { completedSteps := some ["add_helios_network", "claim_from_faucet"] }
    ["add_helios_network", "claim_from_faucet"] hdec hprog rfl
  have hA : (reconcile env w).1 = (innerBody env tok (loadOn w)).1 := by
    rw [reconcile_tok env w tok hwin htok, hh.1]
  constructor
  · rw [hA, hh.2.1]; decide
  · have hp : profileCalls { wallet := some "0xA" } = [ApiCall.getUserProfile "0xA"] := rfl
    rw [hA, hh.2.2.2, hp]
    simp

/-- Witness for the amended C2 at a concrete run. -/
theorem reconcile_two_steps_amended_witness :
    (reconcile envTwoSteps world0).1.store.step = StepVal.num 5 ∧
    ApiCall.getUserProfile "0xA" ∈ (reconcile envTwoSteps world0).1.calls :=
  reconcile_two_steps_amended envTwoSteps world0 "h.p.s" rfl rfl rfl rfl

/-- C5 counterexample: a generic progress-fetch error that matches neither
the not-confirmed nor the bot-verification classification does not
re-propagate: the reconciliation returns normally after clearing the token
and resetting the step. -/
theorem reconcile_generic_error_swallowed_cex :
    isNotConfirmed { message := "boom" } = false ∧
    ({ message := "boom" } : JsError).responseDataRequiresBotVerification = false ∧
    (reconcile envGenericError world0).2 = Except.ok () ∧
    (reconcile envGenericError world0).1.token = none ∧
    (reconcile envGenericError world0).1.store.step = StepVal.num 0 :=
  ⟨by decide, rfl, rfl, rfl, rfl⟩

/-- C5 amended: for every error raised in the token-decode, fetch-user,
fetch-progress and classification phase (a decode failure, a progress-fetch
failure or the invalid completedSteps shape; fetchUser raises none), only
the account-not-confirmed classification re-propagates (as the tagged
confirmation error, after isUserLoading is set to false); the
bot-verification case returns normally; every other error also returns
normally after the token is cleared, the step reset to 0 and isUserLoading
set to false. -/
theorem reconcile_error_propagation_amended (env : Env) (w : World) (tok : String)
    (e : JsError)
    (hwin : env.windowDefined = true) (htok : w.token = some tok)
    (herr : innerErrOf env tok = some e) :
    (isNotConfirmed e = true →
       (reconcile env w).2 = Except.error confirmationError ∧
       (reconcile env w).1.store.isUserLoading = false) ∧
    (isNotConfirmed e = false → e.responseDataRequiresBotVerification = true →
       (reconcile env w).2 = Except.ok ()) ∧
    (isNotConfirmed e = false → e.responseDataRequiresBotVerification = false →
       (reconcile env w).2 = Except.ok () ∧
       (reconcile env w).1.token = none ∧
       (reconcile env w).1.store.step = StepVal.num 0 ∧
       (reconcile env w).1.store.isUserLoading = false) := by
  have hsnd := innerBody_errOf env tok (loadOn w) e herr
  have hA : reconcile env w = handleInnerError e ((innerBody env tok (loadOn w)).1) := by
    rw [reconcile_tok env w tok hwin htok, hsnd]
  refine ⟨?_, ?_, ?_⟩
  · intro hnc
    have hh := handleInnerError_nc e ((innerBody env tok (loadOn w)).1) hnc
    rw [hA]
    exact ⟨hh.2.2.2.2, hh.2.2.1⟩
  · intro hnc hbot
    rw [hA, handleInnerError_bot e _ hnc hbot]
  · intro hnc hbot
    have hh := handleInnerError_other e ((innerBody env tok (loadOn w)).1) hnc hbot
    rw [hA]
    exact ⟨hh.2.2.2.2, hh.1, hh.2.1, hh.2.2.1⟩

/-- Witness for the amended C5 at five concrete runs: the three
classifications of a progress-fetch error plus a token-decode error and the
invalid completedSteps shape. -/
theorem reconcile_error_propagation_amended_witness :
    ((reconcile envNotConfirmedErr world0).2 = Except.error confirmationError ∧
     (reconcile envNotConfirmedErr world0).1.store.isUserLoading = false) ∧
    (reconcile envBot world0).2 = Except.ok () ∧
    ((reconcile envGenericError world0).2 = Except.ok () ∧
     (reconcile envGenericError world0).1.token = none ∧
     (reconcile envGenericError world0).1.store.step = StepVal.num 0 ∧
     (reconcile envGenericError world0).1.store.isUserLoading = false) ∧
    ((reconcile envDecodeErr world0).2 = Except.ok () ∧
     (reconcile envDecodeErr world0).1.token = none ∧
     (reconcile envDecodeErr world0).1.store.step = StepVal.num 0 ∧
     (reconcile envDecodeErr world0).1.store.isUserLoading = false) ∧
    ((reconcile envBadShape world0).2 = Except.ok () ∧
     (reconcile envBadShape world0).1.token = none ∧
     (reconcile envBadShape world0).1.store.step = StepVal.num 0 ∧
     (reconcile envBadShape world0).1.store.isUserLoading = false) := by
  refine ⟨?_, ?_, ?_, ?_, ?_⟩
  · exact (reconcile_error_propagation_amended envNotConfirmedErr world0 "h.p.s"
      { message := "Account not confirmed" } rfl rfl rfl).1 (by decide)
  · exact (reconcile_error_propagation_amended envBot world0 "h.p.s"
      { message := "verify", responseDataRequiresBotVerification := true }
      rfl rfl rfl).2.1 (by decide) rfl
  · exact (reconcile_error_propagation_amended envGenericError world0 "h.p.s"
      { message := "boom" } rfl rfl rfl).2.2 (by decide) rfl
  · exact (reconcile_error_propagation_amended envDecodeErr world0 "h.p.s"
      { message := "Unexpected token" } rfl rfl rfl).2.2 (by decide) rfl
  · exact (reconcile_error_propagation_amended envBadShape world0 "h.p.s"
      invalidProgressError rfl rfl rfl).2.2 (by decide) rfl

/-- C6: the disconnect handler, from every prior state, clears the persisted
token and resets user, progress, the bot-verification flag and the step. -/
theorem handleDisconnect_resets (url : Option String) (w : World) (cs : CWState) :
    (handleDisconnect url w cs).1.token = none ∧
    (handleDisconnect url w cs).1.store.user = none ∧
    (handleDisconnect url w cs).1.store.onboardingProgress = none ∧
    (handleDisconnect url w cs).1.store.requiresBotVerification = false ∧
    (handleDisconnect url w cs).1.store.step = StepVal.num 0 :=
  ⟨rfl, rfl, rfl, rfl, rfl⟩

/-- C9 counterexample: with three completed steps whose last element is
unknown, the reconciliation sets step 7, not NaN, so the claim fails for
arrays of length at least 3. -/
theorem reconcile_unknown_last_cex :
    (reconcile envUnknownThree world0).2 = Except.ok () ∧
    (reconcile envUnknownThree world0).1.store.step = StepVal.num 7 ∧
    (reconcile envUnknownThree world0).1.store.step ≠ StepVal.nan :=
  ⟨rfl, rfl, by decide⟩

/-- C9 amended: for every non-empty completedSteps with fewer than 3 entries
whose last element is none of the three known identifiers, the
reconciliation completes without error and sets the step to NaN. -/
theorem reconcile_unknown_last_nan (env : Env) (w : World) (tok : String)
    (payload : TokenPayload) (progress : OnboardingProgress) (steps : List String)
    (hwin : env.windowDefined = true) (htok : w.token = some tok)
    (hdec : env.decodePayload tok = Except.ok payload)
    (hprog : env.getOnboardingProgress = Except.ok progress)
    (hcs : progress.completedSteps = some steps)
    (hne : steps ≠ []) (hlen : steps.length < 3)
    (h1 : steps.getLastD "" ≠ "add_helios_network")
    (h2 : steps.getLastD "" ≠ "claim_from_faucet")
    (h3 : steps.getLastD "" ≠ "mint_early_bird_nft") :
    (reconcile env w).1.store.step = StepVal.nan ∧
    (reconcile env w).2 = Except.ok () := by
  have hh := innerBody_ok env tok (loadOn w) payload progress steps hdec hprog hcs
  have hA : (reconcile env w).1 = (innerBody env tok (loadOn w)).1 := by
    rw [reconcile_tok env w tok hwin htok, hh.1]
  have hsnd : (reconcile env w).2 = Except.ok () := by
    rw [reconcile_tok env w tok hwin htok, hh.1]
  refine ⟨?_, hsnd⟩
  rw [hA, hh.2.1]
  have hpos : 0 < steps.length := List.length_pos.mpr hne
  have hnot3 : ¬ (3 ≤ steps.length) := by omega
  unfold deriveStepVal
  rw [if_neg hnot3, if_pos hpos]
  unfold stepMapping
  rw [if_neg h1, if_neg h2, if_neg h3]
  rfl

/-- Witness for the amended C9 at a single unknown completed step. -/
theorem reconcile_unknown_last_nan_witness :
    (reconcile envUnknownOne world0).1.store.step = StepVal.nan ∧
    (reconcile envUnknownOne world0).2 = Except.ok () :=
  reconcile_unknown_last_nan envUnknownOne world0 "h.p.s" { wallet := some "0xA" }
    { completedSteps := some ["bogus_step"] } ["bogus_step"] rfl rfl rfl rfl rfl
    (by decide) (by decide) (by decide) (by decide) (by decide)

/-- C7: running the reconciliation twice in succession against the same
environment, with no intervening state change, yields the same final step
after the first call and after the second call. -/
theorem reconcile_idempotent_step (env : Env) (w : World) :
    (reconcile env (reconcile env w).1).1.store.step = (reconcile env w).1.store.step := by
  cases hwin : env.windowDefined with
  | false => simp [reconcile, hwin]
  | true =>
    cases htok : w.token with
    | none =>
      have h1 := reconcile_noToken env w hwin htok
      have ht1 : (reconcile env w).1.token = none := by rw [h1]; exact htok
      have h2 := reconcile_noToken env (reconcile env w).1 hwin ht1
      rw [h2, h1]
      rfl
    | some tok =>
      cases hdec : env.decodePayload tok with
      | error e =>
        have hib1 : innerBody env tok (loadOn w) = (loadOn w, Except.error e) :=
          innerBody_decodeErr env tok (loadOn w) e hdec
        have hA : reconcile env w = handleInnerError e (loadOn w) := by
          rw [reconcile_tok env w tok hwin htok, hib1]
        cases hnc : isNotConfirmed e with
        | true =>
          have hh := handleInnerError_nc e (loadOn w) hnc
          have ht1 : (reconcile env w).1.token = none := by rw [hA]; exact hh.1
          have hs1 : (reconcile env w).1.store.step = StepVal.num 0 := by
            rw [hA]; exact hh.2.1
          have h2 := reconcile_noToken env (reconcile env w).1 hwin ht1
          rw [h2, hs1]
          rfl
        | false =>
          cases hbot : e.responseDataRequiresBotVerification with
          | true =>
            have hh := handleInnerError_bot e (loadOn w) hnc hbot
            have ht1 : (reconcile env w).1.token = some tok := by
              rw [hA, hh]; exact htok
            have hib2 : innerBody env tok (loadOn (reconcile env w).1) =
                (loadOn (reconcile env w).1, Except.error e) :=
              innerBody_decodeErr env tok (loadOn (reconcile env w).1) e hdec
            have hA2 : reconcile env (reconcile env w).1 =
                handleInnerError e (loadOn (reconcile env w).1) := by
              rw [reconcile_tok env (reconcile env w).1 tok hwin ht1, hib2]
            have hh2 := handleInnerError_bot e (loadOn (reconcile env w).1) hnc hbot
            rw [hA2, hh2]
            rfl
          | false =>
            have hh := handleInnerError_other e (loadOn w) hnc hbot
            have ht1 : (reconcile env w).1.token = none := by rw [hA]; exact hh.1
            have hs1 : (reconcile env w).1.store.step = StepVal.num 0 := by
              rw [hA]; exact hh.2.1
            have h2 := reconcile_noToken env (reconcile env w).1 hwin ht1
            rw [h2, hs1]
            rfl
      | ok payload =>
        cases hprog : env.getOnboardingProgress with
        | error e =>
          have hib1 := innerBody_progErr env tok (loadOn w) payload e hdec hprog
          have hA : reconcile env w =
              handleInnerError e ((innerBody env tok (loadOn w)).1) := by
            rw [reconcile_tok env w tok hwin htok, hib1.1]
          cases hnc : isNotConfirmed e with
          | true =>
            have hh := handleInnerError_nc e ((innerBody env tok (loadOn w)).1) hnc
            have ht1 : (reconcile env w).1.token = none := by rw [hA]; exact hh.1
            have hs1 : (reconcile env w).1.store.step = StepVal.num 0 := by
              rw [hA]; exact hh.2.1
            have h2 := reconcile_noToken env (reconcile env w).1 hwin ht1
            rw [h2, hs1]
            rfl
          | false =>
            cases hbot : e.responseDataRequiresBotVerification with
            | true =>
              have hh := handleInnerError_bot e ((innerBody env tok (loadOn w)).1) hnc hbot
              have ht1 : (reconcile env w).1.token = some tok := by
                rw [hA, hh]
                show (innerBody env tok (loadOn w)).1.token = some tok
                rw [hib1.2.1]; exact htok
              have hib2 := innerBody_progErr env tok (loadOn (reconcile env w).1) payload e hdec hprog
              have hA2 : reconcile env (reconcile env w).1 =
                  handleInnerError e ((innerBody env tok (loadOn (reconcile env w).1)).1) := by
                rw [reconcile_tok env (reconcile env w).1 tok hwin ht1, hib2.1]
              have hh2 := handleInnerError_bot e
                ((innerBody env tok (loadOn (reconcile env w).1)).1) hnc hbot
              rw [hA2, hh2]
              show (innerBody env tok (loadOn (reconcile env w).1)).1.store.step =
                (reconcile env w).1.store.step
              rw [hib2.2.2.1]
              simp
            | false =>
              have hh := handleInnerError_other e ((innerBody env tok (loadOn w)).1) hnc hbot
              have ht1 : (reconcile env w).1.token = none := by rw [hA]; exact hh.1
              have hs1 : (reconcile env w).1.store.step = StepVal.num 0 := by
                rw [hA]; exact hh.2.1
              have h2 := reconcile_noToken env (reconcile env w).1 hwin ht1
              rw [h2, hs1]
              rfl
        | ok progress =>
          cases hcs : progress.completedSteps with
          | none =>
            have hib1 := innerBody_invalid env tok (loadOn w) payload progress hdec hprog hcs
            have hA : reconcile env w =
                handleInnerError invalidProgressError ((innerBody env tok (loadOn w)).1) := by
              rw [reconcile_tok env w tok hwin htok, hib1.1]
            have hh := handleInnerError_other invalidProgressError
              ((innerBody env tok (loadOn w)).1)
              isNotConfirmed_invalidProgressError bot_invalidProgressError
            have ht1 : (reconcile env w).1.token = none := by rw [hA]; exact hh.1
            have hs1 : (reconcile env w).1.store.step = StepVal.num 0 := by
              rw [hA]; exact hh.2.1
            have h2 := reconcile_noToken env (reconcile env w).1 hwin ht1
            rw [h2, hs1]
            rfl
          | some steps =>
            have hib1 := innerBody_ok env tok (loadOn w) payload progress steps hdec hprog hcs
            have hA : (reconcile env w).1 = (innerBody env tok (loadOn w)).1 := by
              rw [reconcile_tok env w tok hwin htok, hib1.1]
            have ht1 : (reconcile env w).1.token = some tok := by
              rw [hA, hib1.2.2.1]; exact htok
            have hs1 : (reconcile env w).1.store.step = deriveStepVal steps := by
              rw [hA]; exact hib1.2.1
            have hib2 := innerBody_ok env tok (loadOn (reconcile env w).1) payload
              progress steps hdec hprog hcs
            have hA2 : (reconcile env (reconcile env w).1).1 =
                (innerBody env tok (loadOn (reconcile env w).1)).1 := by
              rw [reconcile_tok env (reconcile env w).1 tok hwin ht1, hib2.1]
            rw [hA2, hib2.2.1, hs1]

theorem mem_calls_reconcile (env : Env) (w : World) (c : ApiCall)
    (hc : c ∈ w.calls) : c ∈ (reconcile env w).1.calls := by
  obtain ⟨l, hl⟩ := reconcile_callsE env w
  rw [hl]
  exact List.mem_append_left l hc

/-- C8: the register/confirm-with-invite handler falls back to the URL code
when the entered code trims to empty; when both are empty it fails with the
local invite-code validation error and issues no confirmAccount call; when
no captcha token is present it fails locally and issues no confirmAccount
call. -/
theorem registerWithInvite_validation (renv : RegEnv) (url : Option String)
    (cs : CWState) (w : World) :
    (optTruthy (jsOr (jsTrim cs.inviteCode) url) = false →
       handleRegisterWithInvite renv url cs w =
         ({ cs with inviteError := some "Invite code is required" }, w)) ∧
    (optTruthy (jsOr (jsTrim cs.inviteCode) url) = true →
     optTruthy cs.pendingWallet = true →
     optTruthy cs.hcaptchaToken = false →
       ((handleRegisterWithInvite renv url cs w).1.inviteError ≠ none ∧
        (handleRegisterWithInvite renv url cs w).2.calls.filter isConfirmCall =
          w.calls.filter isConfirmCall)) ∧
    (∀ u, jsTrim cs.inviteCode = "" → url = some u → u ≠ "" →
     optTruthy cs.pendingWallet = true → optTruthy cs.pendingSignature = true →
     optTruthy cs.hcaptchaToken = true →
       ApiCall.confirmAccount (cs.pendingWallet.getD "") (cs.pendingSignature.getD "") u
         (cs.hcaptchaToken.getD "") ∈ (handleRegisterWithInvite renv url cs w).2.calls) := by
  refine ⟨?_, ?_, ?_⟩
  · intro h
    simp [handleRegisterWithInvite, h]
  · intro hc hwlt hcap
    cases hsig : optTruthy cs.pendingSignature with
    | false =>
      cases hsm : signMessageHelper renv (cs.pendingWallet.getD "") with
      | error se =>
        constructor
        · simp [handleRegisterWithInvite, hc, hwlt, hcap, hsig, hsm]
        · simp [handleRegisterWithInvite, hc, hwlt, hcap, hsig, hsm, isConfirmCall,
            List.filter_append]
      | ok sig =>
        constructor
        · simp [handleRegisterWithInvite, hc, hwlt, hcap, hsig, hsm]
        · simp [handleRegisterWithInvite, hc, hwlt, hcap, hsig, hsm, isConfirmCall,
            List.filter_append]
    | true =>
      constructor
      · simp [handleRegisterWithInvite, hc, hwlt, hcap, hsig]
      · simp [handleRegisterWithInvite, hc, hwlt, hcap, hsig]
  · intro u htrim hurl hu hwlt hsig hcap
    have hcode : jsOr (jsTrim cs.inviteCode) url = some u := by simp [jsOr, htrim, hurl]
    have hut : optTruthy (some u) = true := by simp [optTruthy, hu]
    cases hconf : renv.confirmAccount (cs.pendingWallet.getD "") (cs.pendingSignature.getD "")
        u (cs.hcaptchaToken.getD "") with
    | error ce =>
      simp [handleRegisterWithInvite, hcode, hut, hwlt, hsig, hcap, hconf]
    | ok resp =>
      cases hres : resp.user with
      | none =>
        simp [handleRegisterWithInvite, hcode, hut, hwlt, hsig, hcap, hconf, hres]
      | some usr =>
        simp [handleRegisterWithInvite, hcode, hut, hwlt, hsig, hcap, hconf, hres]
        exact mem_calls_reconcile renv.env _ _ (by simp)

/-- Witness for C8 at concrete component states: empty code with no URL
code, missing captcha token, and the URL fallback reaching confirmAccount. -/
theorem registerWithInvite_validation_witness :
    handleRegisterWithInvite renv0 none csB world0 =
      ({ csB with inviteError := some "Invite code is required" }, world0) ∧
    ((handleRegisterWithInvite renv0 (some "ABC123") csNoCaptcha world0).1.inviteError ≠ none ∧
     (handleRegisterWithInvite renv0 (some "ABC123") csNoCaptcha world0).2.calls.filter
         isConfirmCall =
       world0.calls.filter isConfirmCall) ∧
    ApiCall.confirmAccount "0xB" "sig" "ABC123" "cap" ∈
      (handleRegisterWithInvite renv0 (some "ABC123") csB world0).2.calls := by
  refine ⟨?_, ?_, ?_⟩
  · exact (registerWithInvite_validation renv0 none csB world0).1 (by decide)
  · exact (registerWithInvite_validation renv0 (some "ABC123") csNoCaptcha world0).2.1
      (by decide) (by decide) (by decide)
  · exact (registerWithInvite_validation renv0 (some "ABC123") csB world0).2.2 "ABC123"
      (by decide) rfl (by decide) (by decide) (by decide) (by decide)

end HeliosTestnet
